import Mathlib

/-!
Verification development for the preprocessing pipeline of the
`data-analysis-dashboard` repository (`dashboard/data_preprocessing.py`,
function `preprocess_data`).

The pipeline is shallowly embedded: a pandas `DataFrame` becomes a header
(column names with dtypes) plus a list of rows of cells, numeric cells are
exact rationals (the source computes in IEEE float64; all arithmetic the
claims exercise is exactly representable), and every Python statement that
can raise an uncaught exception is modelled in the `Except` monad, with the
exception class and the offending name recorded in `PyErr`.
-/

set_option maxHeartbeats 1000000

namespace Dashboard

/-- Pandas column dtypes that occur in the pipeline.  `string` stands for an
object column of Python strings (`pd.api.types.is_string_dtype` answers true
for it), `category` is the dtype produced by `pd.cut`, `boolean` the dtype of
`pd.get_dummies` indicator columns. -/
inductive Dtype where
  | float64
  | int64
  | string
  | datetime
  | category
  | boolean
deriving DecidableEq, Repr

/-- `true` for the dtypes matched by `np.number` / `[np.float64, np.int64]`. -/
def Dtype.isNumeric : Dtype → Bool
  | .float64 => true
  | .int64 => true
  | _ => false

/-- One cell of a column.  `na` is a missing value (`NaN` / `NaT`); a datetime
cell carries its calendar components `(year, month, day, weekday, quarter)`
with pandas' Monday = 0 weekday convention, which is exactly the data the
`.dt` accessors used by the feature-engineering stage read off. -/
inductive Value where
  | num (q : ℚ)
  | str (s : String)
  | bool (b : Bool)
  | dt (year month day weekday quarter : ℤ)
  | na
deriving DecidableEq, Repr

/-- `pd.isnull` on one cell. -/
def Value.isNa : Value → Bool
  | .na => true
  | _ => false

abbrev Row := List Value

/-- A pandas DataFrame: named, typed columns and a list of rows (row-major,
so that row removal applies to every column at once, as in pandas). -/
structure DataFrame where
  header : List (String × Dtype)
  rows : List Row
deriving DecidableEq, Repr

/-- `len(df)`: the number of rows. -/
def DataFrame.nrows (df : DataFrame) : ℕ := df.rows.length

/-- Uncaught Python exceptions the function body can raise, with the name,
key or attribute they complain about. -/
inductive PyErr where
  | nameError (n : String)
  | keyError (k : String)
  | attributeError (a : String)
  | typeError (m : String)
  | valueError (m : String)
deriving DecidableEq, Repr

/-- Position of column `c` in the header (pandas label lookup; first match). -/
def colIdx (df : DataFrame) (c : String) : Option ℕ :=
  df.header.findIdx? (fun p => p.1 == c)

/-- Cell of row `r` in column position `i`. -/
def cellAt (r : Row) (i : ℕ) : Value := r.getD i Value.na

/-- Dtype of the column at position `i`. -/
def dtypeAt (df : DataFrame) (i : ℕ) : Dtype :=
  (df.header.getD i ("", Dtype.float64)).2

/-- The column at position `i` as a list of cells, one per row. -/
def colVals (df : DataFrame) (i : ℕ) : List Value :=
  df.rows.map (fun r => cellAt r i)

/-- Cell-wise update of column `i` (`df[col] = f(df[col])` for an
elementwise `f`). -/
def mapColAt (df : DataFrame) (i : ℕ) (f : Value → Value) : DataFrame :=
  { df with rows := df.rows.map (fun r => r.set i (f (cellAt r i))) }

/-- Positional update of column `i` with a freshly computed list of cells
(`df[col] = s` for a series `s` aligned with the index). -/
def setColAt (df : DataFrame) (i : ℕ) (vs : List Value) : DataFrame :=
  { df with rows := (df.rows.zip vs).map (fun p => p.1.set i p.2) }

/-- Replace the dtype recorded for column `i`, keeping its name. -/
def setDtypeAt (df : DataFrame) (i : ℕ) (d : Dtype) : DataFrame :=
  { df with
    header := df.header.set i ((df.header.getD i ("", d)).1, d) }

/-- `df[name] = <series computed row-wise>`: overwrite the column if the name
exists, otherwise append it at the end (pandas column assignment). -/
def assignCol (df : DataFrame) (c : String) (d : Dtype) (f : Row → Value) :
    DataFrame :=
  match colIdx df c with
  | some i =>
      { header := df.header.set i (c, d),
        rows := df.rows.map (fun r => r.set i (f r)) }
  | none =>
      { header := df.header ++ [(c, d)],
        rows := df.rows.map (fun r => r ++ [f r]) }

/-- `pd.concat([df, onecol], axis=1)`: always appends, even when the name
duplicates an existing column. -/
def concatCol (df : DataFrame) (c : String) (d : Dtype) (f : Row → Value) :
    DataFrame :=
  { header := df.header ++ [(c, d)],
    rows := df.rows.map (fun r => r ++ [f r]) }

/-- Keep the rows satisfying `p` (boolean-mask selection / `dropna`). -/
def filterRows (df : DataFrame) (p : Row → Bool) : DataFrame :=
  { df with rows := df.rows.filter p }

/-- `df.drop(names, axis=1)` restricted to names that are present: removes
every column whose name is listed. -/
def dropNames (df : DataFrame) (cs : List String) : DataFrame :=
  { header := df.header.filter (fun p => !(cs.contains p.1)),
    rows := df.rows.map (fun r =>
      ((df.header.zip r).filter (fun q => !(cs.contains q.1.1))).map
        (fun q => q.2)) }

/-- Numeric contents of a list of cells; pandas statistics skip `NaN`, so all
column statistics below are computed on this list. -/
def numsOf (vs : List Value) : List ℚ :=
  vs.filterMap (fun v => match v with | .num q => some q | _ => none)

/-- Insert into an ascending list (helper for sorting). -/
def insertAsc (x : ℚ) : List ℚ → List ℚ
  | [] => [x]
  | y :: ys => if x ≤ y then x :: y :: ys else y :: insertAsc x ys

/-- Ascending insertion sort. -/
def sortAsc (l : List ℚ) : List ℚ := l.foldr insertAsc []

/-- `Series.mean()` over the non-missing values (`None` when there are
none, i.e. the pandas result is `NaN`). -/
def meanOf (xs : List ℚ) : Option ℚ :=
  if xs.isEmpty then none else some (xs.sum / xs.length)

/-- `Series.quantile(p)` with the default linear interpolation: with the
values sorted ascending and `h = p·(n−1)`, the result interpolates between
the entries at positions `⌊h⌋` and `⌊h⌋+1`. -/
def quantileOf (p : ℚ) (xs : List ℚ) : Option ℚ :=
  let s := sortAsc xs
  let n := s.length
  if n = 0 then none
  else
    let h : ℚ := p * ((n : ℚ) - 1)
    let i : ℕ := (Int.floor h).toNat
    let frac : ℚ := h - (i : ℚ)
    let lo := s.getD i 0
    let hi := s.getD (min (i + 1) (n - 1)) 0
    some (lo + frac * (hi - lo))

/-- `Series.median()` = the 0.5 quantile of the non-missing values. -/
def medianOf (xs : List ℚ) : Option ℚ := quantileOf (1/2) xs

/-- Minimum of a list of rationals. -/
def listMinQ : List ℚ → Option ℚ
  | [] => none
  | x :: xs => some (match listMinQ xs with | none => x | some m => min x m)

/-- Maximum of a list of rationals. -/
def listMaxQ : List ℚ → Option ℚ
  | [] => none
  | x :: xs => some (match listMaxQ xs with | none => x | some m => max x m)

/-- Total order on cells used where pandas sorts values (`Series.mode`,
`pd.get_dummies` category order).  A real column holds a single dtype, so
only the same-constructor cases are exercised; distinct constructors are
ranked arbitrarily. -/
def valueLE (a b : Value) : Bool :=
  match a, b with
  | .num x, .num y => decide (x ≤ y)
  | .str x, .str y => decide (x ≤ y)
  | .bool x, .bool y => !x || y
  | .dt y1 m1 d1 _ _, .dt y2 m2 d2 _ _ =>
      decide (y1 < y2) ||
      (y1 == y2 && (decide (m1 < m2) || (m1 == m2 && decide (d1 ≤ d2))))
  | a, b => valueRank a ≤ valueRank b
where
  valueRank : Value → ℕ
  | .num _ => 0
  | .str _ => 1
  | .bool _ => 2
  | .dt .. => 3
  | .na => 4

/-- Insertion into a `valueLE`-ascending list. -/
def insertValAsc (x : Value) : List Value → List Value
  | [] => [x]
  | y :: ys => if valueLE x y then x :: y :: ys else y :: insertValAsc x ys

/-- Sort cells ascending by `valueLE`. -/
def sortValues (l : List Value) : List Value := l.foldr insertValAsc []

/-- `Series.mode()[0]` of the non-missing values: the most frequent value,
and among ties the smallest, because `mode` returns its result sorted and
`[0]` takes the first entry.  `none` when there is no non-missing value (the
real `mode()` is then empty and `[0]` raises). -/
def modeOf (vs : List Value) : Option Value :=
  let nn := vs.filter (fun v => !v.isNa)
  (sortValues nn.dedup).foldl
    (fun acc v =>
      match acc with
      | none => some v
      | some w => if nn.count w < nn.count v then some v else acc)
    none

/-- `Series.fillna(method='ffill')`: each missing cell takes the nearest
preceding non-missing value (`prev`), leading missing cells stay missing. -/
def ffillFrom (prev : Option Value) : List Value → List Value
  | [] => []
  | v :: vs =>
      if v.isNa then
        (match prev with | none => Value.na | some w => w) :: ffillFrom prev vs
      else v :: ffillFrom (some v) vs

/-- `Series.fillna(method='bfill')`: forward fill on the reversed column. -/
def bfill (vs : List Value) : List Value := (ffillFrom none vs.reverse).reverse

/-- The missing-value cell written by the `mean` branch
(`fillna(mean)`; when every value is missing the mean is `NaN` and the fill
is a no-op). -/
def meanFillValue (xs : List ℚ) : Value :=
  match meanOf xs with
  | none => Value.na
  | some q => Value.num q

/-- The scalar the buggy `median` branch broadcasts
(`processed_df[col].fillna(processed_df[col]).median()`: filling a column
with itself changes nothing, and `.median()` then reduces the whole series
to one number). -/
def medianScalar (xs : List ℚ) : Value :=
  match medianOf xs with
  | none => Value.na
  | some q => Value.num q

/-- Lines 36–51, one `(col, method)` entry of `config['handle_missing']`.
The entry is skipped when the column is absent or has no missing value
(line 37); an unrecognized method falls through every `elif` and is skipped.
Faithful to the source, including its slips:
* `median` (line 43) misplaces a parenthesis, so the column's scalar median
  is assigned to the whole column;
* `zero` (line 47) writes `processed.df`, reading the undefined name
  `processed`, so it raises `NameError`;
* `mean`/`median` on a non-numeric column raise `TypeError` from pandas
  (pandas can in fact average datetime columns; the model treats datetime
  like the other non-numeric dtypes since no claim touches that corner). -/
def applyMissingOne (df : DataFrame) (col method : String) :
    Except PyErr DataFrame :=
  match colIdx df col with
  | none => .ok df
  | some i =>
    if (colVals df i).any Value.isNa then
      if method = "drop" then
        .ok (filterRows df (fun r => !(cellAt r i).isNa))
      else if method = "mean" then
        if (dtypeAt df i).isNumeric then
          let w := meanFillValue (numsOf (colVals df i))
          .ok (mapColAt df i (fun v => if v.isNa then w else v))
        else .error (.typeError "mean")
      else if method = "median" then
        if (dtypeAt df i).isNumeric then
          let w := medianScalar (numsOf (colVals df i))
          .ok (mapColAt df i (fun _ => w))
        else .error (.typeError "median")
      else if method = "mode" then
        match modeOf (colVals df i) with
        | none => .error (.keyError "0")
        | some w => .ok (mapColAt df i (fun v => if v.isNa then w else v))
      else if method = "zero" then
        .error (.nameError "processed")
      else if method = "forward" then
        .ok (setColAt df i (ffillFrom none (colVals df i)))
      else if method = "backward" then
        .ok (setColAt df i (bfill (colVals df i)))
      else .ok df
    else .ok df

/-- The IQR outlier bounds of lines 57–61 / 64–68:
`lower = Q1 − 1.5·IQR`, `upper = Q3 + 1.5·IQR`, from the linear-interpolation
quantiles of the non-missing values (`none` when the column has none, the
real quantiles then being `NaN`). -/
def outlierBounds (xs : List ℚ) : Option (ℚ × ℚ) :=
  match quantileOf (1/4) xs, quantileOf (3/4) xs with
  | some q1, some q3 =>
      some (q1 - (3/2) * (q3 - q1), q3 + (3/2) * (q3 - q1))
  | _, _ => none

/-- Lines 54–69, one `(col, method)` entry of `config['handle_outliers']`.
Runs only when the column exists with dtype `float64` or `int64` (line 55).
`clip` clamps numeric cells into the bounds and leaves `NaN` alone; `remove`
keeps exactly the rows whose cell compares inside the bounds — a `NaN` cell
compares false, so such rows are removed too, and when the whole column is
missing the `NaN` bounds compare false against everything.  The dtype of a
clipped integer column is left unchanged (the real clip may promote it to
float; both are numeric for every later dtype test).  An unrecognized
method matches no branch and is skipped. -/
def applyOutlierOne (df : DataFrame) (col method : String) : DataFrame :=
  match colIdx df col with
  | none => df
  | some i =>
    if (dtypeAt df i).isNumeric then
      if method = "clip" then
        match outlierBounds (numsOf (colVals df i)) with
        | none => df
        | some (lo, hi) =>
            mapColAt df i (fun v =>
              match v with
              | .num q => .num (max lo (min q hi))
              | v => v)
      else if method = "remove" then
        match outlierBounds (numsOf (colVals df i)) with
        | none => filterRows df (fun _ => false)
        | some (lo, hi) =>
            filterRows df (fun r =>
              match cellAt r i with
              | .num q => decide (lo ≤ q) && decide (q ≤ hi)
              | _ => false)
      else df
    else df

/-- The scale factor sklearn's `StandardScaler` divides by is `σ`, the square
root of the (ddof = 0) variance of the non-missing values, with
`_handle_zeros_in_scale` turning a zero into 1.  `σ` is irrational for
general rational data, so it has no exact representative in this value
model; `stdScaleQ` is the model's stand-in positive scale factor (the
variance itself when it is nonzero).  No claim in this development depends
on the numeric values standard scaling produces — only on the shape and the
row count of its output, which are the same for every positive scale. -/
def stdScaleQ (xs : List ℚ) : ℚ :=
  match meanOf xs with
  | none => 1
  | some m =>
      let v := (xs.map (fun x => (x - m) * (x - m))).sum / xs.length
      if v = 0 then 1 else v

/-- Per-value transform of one column for each scaler, on the statistics of
its non-missing values (sklearn scalers ignore `NaN` when fitting and
preserve it when transforming):
* `standard`: `(x − mean)/σ` (see `stdScaleQ` for σ);
* `minmax`: `(x − min)/(max − min)`, a zero range replaced by 1, so a
  constant column maps to all zeros;
* `robust`: `(x − median)/(Q3 − Q1)`, a zero IQR likewise replaced by 1. -/
def scalerFun (method : String) (xs : List ℚ) : ℚ → ℚ :=
  if method = "standard" then
    fun x => (x - (meanOf xs).getD 0) / stdScaleQ xs
  else if method = "minmax" then
    let mn := (listMinQ xs).getD 0
    let range := (listMaxQ xs).getD 0 - mn
    fun x => (x - mn) / (if range = 0 then 1 else range)
  else
    let med := (medianOf xs).getD 0
    let iqr := (quantileOf (3/4) xs).getD 0 - (quantileOf (1/4) xs).getD 0
    fun x => (x - med) / (if iqr = 0 then 1 else iqr)

/-- `scaler.fit_transform` on one column of the frame: numeric cells are
transformed with the column's fitted statistics, missing cells stay missing,
and the stored dtype becomes `float64`. -/
def scaleColumn (method : String) (df : DataFrame) (col : String) :
    DataFrame :=
  match colIdx df col with
  | none => df
  | some i =>
    let f := scalerFun method (numsOf (colVals df i))
    setDtypeAt
      (mapColAt df i (fun v =>
        match v with
        | .num q => .num (f q)
        | v => v)) i Dtype.float64

/-- `config['scaling']`: the required `method` key and the optional
`columns` key (line 74–75). -/
structure Scaling where
  method : String
  columns : Option (List String) := none
deriving DecidableEq, Repr

/-- `select_dtypes(include=[np.number]).columns.tolist()` (line 72). -/
def numericCols (df : DataFrame) : List String :=
  (df.header.filter (fun p => p.2.isNumeric)).map (fun p => p.1)

/-- Line 77: the configured columns (defaulting to all numeric columns)
filtered down to the numeric ones actually present. -/
def validScaleCols (df : DataFrame) (sc : Scaling) : List String :=
  (sc.columns.getD (numericCols df)).filter
    (fun c => (numericCols df).contains c)

/-- Lines 71–89, the scaling stage.  The result's boolean is `true` when
execution continues to the later stages and `false` for the early
`return processed_df` of line 87, reached when the method is none of
`standard`/`minmax`/`robust` and at least one valid column exists; with no
valid column the whole block is skipped (line 79), whatever the method.
Fitting a scaler on a frame with no rows raises `ValueError` in sklearn. -/
def scalingStage (df : DataFrame) (sc : Scaling) :
    Except PyErr (Bool × DataFrame) :=
  if (validScaleCols df sc).isEmpty then .ok (true, df)
  else if sc.method = "standard" ∨ sc.method = "minmax" ∨
      sc.method = "robust" then
    if df.rows.isEmpty then .error (.valueError "0 samples")
    else .ok (true, (validScaleCols df sc).foldl (scaleColumn sc.method) df)
  else .ok (false, df)

/-- `.dt.year` of one cell (`NaN` for `NaT`). -/
def dtYear : Value → Value
  | .dt y _ _ _ _ => .num (y : ℚ)
  | _ => .na

/-- `.dt.month`. -/
def dtMonth : Value → Value
  | .dt _ m _ _ _ => .num (m : ℚ)
  | _ => .na

/-- `.dt.day`. -/
def dtDay : Value → Value
  | .dt _ _ d _ _ => .num (d : ℚ)
  | _ => .na

/-- `.dt.weekday` (Monday = 0). -/
def dtWeekday : Value → Value
  | .dt _ _ _ w _ => .num (w : ℚ)
  | _ => .na

/-- `.dt.quarter`. -/
def dtQuarter : Value → Value
  | .dt _ _ _ _ q => .num (q : ℚ)
  | _ => .na

/-- `(weekday >= 5).astype(int)`: 1 for Saturday/Sunday; a missing weekday
compares false, giving 0. -/
def dtIsWeekend : Value → Value
  | .dt _ _ _ w _ => .num (if 5 ≤ w then 1 else 0)
  | _ => .num 0

/-- Lines 97–113: append (or overwrite) one derived column per requested
datetime component, in source order. -/
def addDatetimeFeatures (df : DataFrame) (i : ℕ) (col : String)
    (l : List String) : DataFrame :=
  let d1 := if l.contains "year" then
      assignCol df (col ++ "_year") Dtype.float64 (fun r => dtYear (cellAt r i))
    else df
  let d2 := if l.contains "month" then
      assignCol d1 (col ++ "_month") Dtype.float64
        (fun r => dtMonth (cellAt r i))
    else d1
  let d3 := if l.contains "day" then
      assignCol d2 (col ++ "_day") Dtype.float64 (fun r => dtDay (cellAt r i))
    else d2
  let d4 := if l.contains "weekday" then
      assignCol d3 (col ++ "_weekday") Dtype.float64
        (fun r => dtWeekday (cellAt r i))
    else d3
  let d5 := if l.contains "quarter" then
      assignCol d4 (col ++ "_quarter") Dtype.float64
        (fun r => dtQuarter (cellAt r i))
    else d4
  if l.contains "is_weekend" then
    assignCol d5 (col ++ "_is_weekend") Dtype.int64
      (fun r => dtIsWeekend (cellAt r i))
  else d5

/-- The `features['binning']` parameters (line 115–116). -/
structure BinCfg where
  n_bins : Option ℕ := none
  labels : Option (List String) := none
deriving DecidableEq, Repr

/-- The bin edges `pd.cut` derives for `n` equal-width bins: a degenerate
range is widened by 0.1% on both sides before splitting, otherwise the
leftmost edge is lowered by 0.1% of the range after splitting (so the
minimum lands inside the first right-closed interval). -/
def cutEdges (xs : List ℚ) (n : ℕ) : List ℚ :=
  let mn := (listMinQ xs).getD 0
  let mx := (listMaxQ xs).getD 0
  if mn = mx then
    let lo := mn - (if mn = 0 then 1/1000 else |mn| / 1000)
    let hi := mx + (if mx = 0 then 1/1000 else |mx| / 1000)
    (List.range (n + 1)).map (fun j => lo + (j : ℚ) * (hi - lo) / (n : ℚ))
  else
    match (List.range (n + 1)).map
        (fun j => mn + (j : ℚ) * (mx - mn) / (n : ℚ)) with
    | [] => []
    | e0 :: rest => (e0 - (mx - mn) / 1000) :: rest

/-- Index of the right-closed interval `(edges[j], edges[j+1]]` holding `x`,
if any. -/
def binIndex (edges : List ℚ) (x : ℚ) : Option ℕ :=
  (List.range (edges.length - 1)).find?
    (fun j => decide (edges.getD j 0 < x) && decide (x ≤ edges.getD (j + 1) 0))

/-- The cell `pd.cut` produces for one value: the interval holding it, or
its label when labels are configured; values outside every interval and
missing values give `NaN`.  An unlabelled interval is modelled by its
index. -/
def binVal (edges : List ℚ) (labels : Option (List String)) (v : Value) :
    Value :=
  match v with
  | .num q =>
      match binIndex edges q with
      | none => .na
      | some j =>
          match labels with
          | none => .num (j : ℚ)
          | some ls => .str (ls.getD j "")
  | _ => .na

/-- Lines 114–121: `processed_df[f'..._bin'] = pd.cut(column, n_bins,
labels)`.  `pd.cut` raises `ValueError` for a non-positive bin count, for a
label list whose length differs from the bin count, and when the column has
no non-missing value to take a range from. -/
def binColumn (df : DataFrame) (i : ℕ) (col : String) (b : BinCfg) :
    Except PyErr DataFrame :=
  if b.n_bins.getD 5 = 0 then .error (.valueError "bins")
  else if (numsOf (colVals df i)).isEmpty then .error (.valueError "cut")
  else
    match b.labels with
    | some ls =>
        if ls.length = b.n_bins.getD 5 then
          .ok (assignCol df (col ++ "_bin") Dtype.category
            (fun r => binVal (cutEdges (numsOf (colVals df i))
              (b.n_bins.getD 5)) (some ls) (cellAt r i)))
        else .error (.valueError "labels")
    | none =>
        .ok (assignCol df (col ++ "_bin") Dtype.category
          (fun r => binVal (cutEdges (numsOf (colVals df i))
            (b.n_bins.getD 5)) none (cellAt r i)))

/-- `Series.str.len()` on one cell. -/
def strLenVal : Value → Value
  | .str s => .num (s.length : ℚ)
  | _ => .na

/-- `Series.str.split().str.len()` on one cell: number of whitespace-
separated tokens (split on spaces, empty tokens dropped). -/
def wordCountVal : Value → Value
  | .str s => .num (((s.splitOn " ").filter (fun t => t ≠ "")).length : ℚ)
  | _ => .na

/-- One value of `config['feature_engineering']` (lines 93–131): the
optional `datetime_features`, `binning` and `text_features` entries, plus an
optional literal `'text-features'` entry — the key line 124 actually reads;
a normal configuration never supplies it, and then line 124 raises
`KeyError`. -/
structure Features where
  datetime_features : Option (List String) := none
  binning : Option BinCfg := none
  text_features : Option (List String) := none
  text_features_dash : Option (List String) := none
deriving DecidableEq, Repr

/-- Lines 96–113 as one step: the datetime-feature block, run when the
entry requests `datetime_features` and the column holds datetimes. -/
def dtFeatureStep (df : DataFrame) (i : ℕ) (col : String) (ft : Features) :
    DataFrame :=
  match ft.datetime_features with
  | some l =>
      if dtypeAt df i = Dtype.datetime then addDatetimeFeatures df i col l
      else df
  | none => df

/-- Lines 114–121 as one step: the binning block, run when the entry
requests `binning` and the column is numeric. -/
def binFeatureStep (df : DataFrame) (i : ℕ) (col : String) (ft : Features) :
    Except PyErr DataFrame :=
  match ft.binning with
  | some b =>
      if (dtypeAt df i).isNumeric then binColumn df i col b else .ok df
  | none => .ok df

/-- Lines 123–131 as one step: the text-feature block, run when the entry
requests `text_features` and the column holds strings.  The `'length'`
membership test of line 124 reads the misspelt key `'text-features'`
(raising `KeyError` when, as in any normal configuration, it is absent),
and the `'contains'` branch of line 131 reads the undefined names
`new_col`/`item`; the right-hand side is evaluated first, so `item` is the
name reported by the `NameError`. -/
def textFeatureStep (df : DataFrame) (i : ℕ) (col : String) (ft : Features) :
    Except PyErr DataFrame :=
  match ft.text_features with
  | none => .ok df
  | some l =>
      if dtypeAt df i = Dtype.string then
        match ft.text_features_dash with
        | none => .error (.keyError "text-features")
        | some ld =>
            if l.contains "contains" then .error (.nameError "item")
            else
              .ok (textAddWordCount
                (textAddLength df i col ld) i col l)
      else .ok df
where
  textAddLength (df : DataFrame) (i : ℕ) (col : String) (ld : List String) :
      DataFrame :=
    if ld.contains "length" then
      assignCol df (col ++ "_length") Dtype.float64
        (fun r => strLenVal (cellAt r i))
    else df
  textAddWordCount (df : DataFrame) (i : ℕ) (col : String)
      (l : List String) : DataFrame :=
    if l.contains "word_count" then
      assignCol df (col ++ "_word_count") Dtype.float64
        (fun r => wordCountVal (cellAt r i))
    else df

/-- Lines 93–131, one `(col, features)` entry of
`config['feature_engineering']`, skipped when the column is absent: the
datetime, binning and text blocks in source order, each guarded by its own
dtype test on the current frame (the earlier blocks only append derived
columns, so the source column and its dtype at position `i` are those of
the incoming frame). -/
def applyFeatureOne (df : DataFrame) (col : String) (ft : Features) :
    Except PyErr DataFrame :=
  match colIdx df col with
  | none => .ok df
  | some i =>
    match binFeatureStep (dtFeatureStep df i col ft) i col ft with
    | .error e => .error e
    | .ok d2 => textFeatureStep d2 i col ft

/-- The string pandas uses for a category in a `get_dummies` column name
(`f'{col}_{v}'`); only its injectivity per dtype matters here, so the exact
float formatting is not reproduced. -/
def valueName : Value → String
  | .num q => toString q
  | .str s => s
  | .bool b => toString b
  | .dt y m d _ _ => toString y ++ "-" ++ toString m ++ "-" ++ toString d
  | .na => "nan"

/-- Lines 134–143, one `(col, method)` entry of `config['encoding']`,
skipped when the column is absent.
* `onehot` (lines 136–140): `pd.get_dummies` builds one indicator column per
  distinct non-missing value, in sorted value order, a missing cell getting
  all zeros; they are concatenated on the right and the source column is
  then dropped by name.
* `label` (line 143) evaluates `processed_df[col.astype('category')]`:
  `col` is the configuration's column-name string and has no `astype`
  attribute, so the line raises `AttributeError` (the assignment target
  `processed_dt` is also an undefined name, but the right-hand side is
  evaluated first).
* Any other method matches no branch and is skipped. -/
def applyEncodingOne (df : DataFrame) (col method : String) :
    Except PyErr DataFrame :=
  match colIdx df col with
  | none => .ok df
  | some i =>
    if method = "onehot" then
      let cats := sortValues ((colVals df i).filter (fun v => !v.isNa)).dedup
      let d1 := cats.foldl
        (fun d v =>
          concatCol d (col ++ "_" ++ valueName v) Dtype.boolean
            (fun r => .bool (cellAt r i == v)))
        df
      .ok (dropNames d1 [col])
    else if method = "label" then .error (.attributeError "astype")
    else .ok df

/-- The argument of `preprocess_data`: one optional entry per stage, in the
shape the function reads (dictionaries become ordered association lists).
An absent or empty entry and a false `convert_types` flag make the
corresponding block a no-op, exactly as the truthiness guards of lines 25,
35, 53, 71, 91, 133 and 145 do. -/
structure Config where
  convert_types : Bool := false
  handle_missing : List (String × String) := []
  handle_outliers : List (String × String) := []
  scaling : Option Scaling := none
  feature_engineering : List (String × Features) := []
  encoding : List (String × String) := []
  drop_columns : List String := []
deriving DecidableEq, Repr

/-- The body of the per-column `try` of lines 27–31: its first statement
reads the undefined name `dtype`, so it always raises `NameError` before
touching the frame. -/
def convertTypeBody (_df : DataFrame) (_col : String) :
    Except PyErr DataFrame :=
  .error (.nameError "dtype")

/-- Lines 25–33, the `convert_types` block: for every column the `try` body
raises (see `convertTypeBody`), `except Exception` catches the error and
prints a per-column failure message, and the loop continues; the frame is
never modified. -/
def convertTypesStage (df : DataFrame) : DataFrame :=
  df.header.foldl
    (fun d p =>
      match convertTypeBody d p.1 with
      | .error _ => d
      | .ok d' => d')
    df

/-- A Python `for` loop over dictionary items whose body may raise: each
iteration transforms the frame or aborts the whole call with the first
uncaught exception. -/
def foldStages {α : Type} (f : DataFrame → α → Except PyErr DataFrame) :
    DataFrame → List α → Except PyErr DataFrame
  | d, [] => .ok d
  | d, a :: l =>
      match f d a with
      | .error e => .error e
      | .ok d' => foldStages f d' l

/-- Lines 23–69: the copy, the `convert_types` block, the missing-value
loop and the outlier loop — everything that runs before the scaling
stage. -/
def stagesBeforeScaling (df : DataFrame) (cfg : Config) :
    Except PyErr DataFrame :=
  let pdf := df
  let pdf := if cfg.convert_types then convertTypesStage pdf else pdf
  match foldStages (fun d p => applyMissingOne d p.1 p.2) pdf
      cfg.handle_missing with
  | .error e => .error e
  | .ok pdf =>
      .ok (cfg.handle_outliers.foldl (fun d p => applyOutlierOne d p.1 p.2)
        pdf)

/-- Lines 91–147: feature engineering, encoding and column dropping — the
stages after scaling. -/
def stagesAfterScaling (df : DataFrame) (cfg : Config) :
    Except PyErr DataFrame :=
  match foldStages (fun d p => applyFeatureOne d p.1 p.2) df
      cfg.feature_engineering with
  | .error e => .error e
  | .ok pdf =>
    match foldStages (fun d p => applyEncodingOne d p.1 p.2) pdf
        cfg.encoding with
    | .error e => .error e
    | .ok pdf =>
        .ok (if cfg.drop_columns.isEmpty then pdf
          else dropNames pdf cfg.drop_columns)

/-- `preprocess_data(df, config)` (lines 6–149): the stages in source
order, with the scaling stage's `return processed_df` of line 87 ending the
call early when it fires. -/
def preprocess_data (df : DataFrame) (cfg : Config) :
    Except PyErr DataFrame :=
  match stagesBeforeScaling df cfg with
  | .error e => .error e
  | .ok pdf =>
    match cfg.scaling with
    | none => stagesAfterScaling pdf cfg
    | some sc =>
      match scalingStage pdf sc with
      | .error e => .error e
      | .ok (false, d) => .ok d
      | .ok (true, d) => stagesAfterScaling d cfg

/-- The call frame of `preprocess_data` as the caller sees it: `caller` is
the object passed as `df`; line 23 binds the local `processed_df` to
`df.copy()`, an independent deep copy, and every later statement of the
function reads or writes `processed_df` (or one of the misspelt names,
which raises), never `df`.  The call therefore returns the caller's object
unchanged next to the function's result. -/
def preprocessCall (caller : DataFrame) (cfg : Config) :
    DataFrame × Except PyErr DataFrame :=
  let processed_df := caller
  (caller, preprocess_data processed_df cfg)

/-! ### Row-count lemmas for the individual operations -/

theorem nrows_mapColAt (df : DataFrame) (i : ℕ) (f : Value → Value) :
    (mapColAt df i f).nrows = df.nrows := by
  simp [mapColAt, DataFrame.nrows]

theorem nrows_setColAt (df : DataFrame) (i : ℕ) (vs : List Value)
    (h : vs.length = df.nrows) : (setColAt df i vs).nrows = df.nrows := by
  have h' : vs.length = df.rows.length := h
  simp [setColAt, DataFrame.nrows, List.length_zip, h']

theorem nrows_setDtypeAt (df : DataFrame) (i : ℕ) (d : Dtype) :
    (setDtypeAt df i d).nrows = df.nrows := rfl

theorem nrows_assignCol (df : DataFrame) (c : String) (d : Dtype)
    (f : Row → Value) : (assignCol df c d f).nrows = df.nrows := by
  unfold assignCol
  cases colIdx df c <;> simp [DataFrame.nrows]

theorem nrows_concatCol (df : DataFrame) (c : String) (d : Dtype)
    (f : Row → Value) : (concatCol df c d f).nrows = df.nrows := by
  simp [concatCol, DataFrame.nrows]

theorem nrows_dropNames (df : DataFrame) (cs : List String) :
    (dropNames df cs).nrows = df.nrows := by
  simp [dropNames, DataFrame.nrows]

theorem ffillFrom_length (l : List Value) :
    ∀ prev, (ffillFrom prev l).length = l.length := by
  induction l with
  | nil => intro prev; rfl
  | cons v vs ih =>
      intro prev
      unfold ffillFrom
      split <;> simp [ih]

theorem bfill_length (l : List Value) : (bfill l).length = l.length := by
  simp [bfill, ffillFrom_length]

theorem colVals_length (df : DataFrame) (i : ℕ) :
    (colVals df i).length = df.nrows := by
  simp [colVals, DataFrame.nrows]

/-! ### Row-count preservation of each stage -/

theorem applyMissingOne_nrows (df : DataFrame) (col method : String)
    (hm : method ≠ "drop") (d : DataFrame)
    (h : applyMissingOne df col method = .ok d) : d.nrows = df.nrows := by
  unfold applyMissingOne at h
  repeat' split at h
  all_goals first
    | exact absurd (by assumption) hm
    | (cases h; rfl)
    | (cases h; exact nrows_mapColAt ..)
    | (cases h;
       exact nrows_setColAt _ _ _ (by rw [ffillFrom_length, colVals_length]))
    | (cases h;
       exact nrows_setColAt _ _ _ (by rw [bfill_length, colVals_length]))
    | cases h

theorem applyOutlierOne_nrows (df : DataFrame) (col method : String)
    (hm : method ≠ "remove") :
    (applyOutlierOne df col method).nrows = df.nrows := by
  unfold applyOutlierOne
  repeat' split
  all_goals first
    | exact absurd (by assumption) hm
    | rfl
    | exact nrows_mapColAt ..

theorem convertTypesStage_eq (df : DataFrame) : convertTypesStage df = df := by
  unfold convertTypesStage
  generalize df.header = l
  induction l generalizing df with
  | nil => rfl
  | cons p l ih => exact ih df

theorem nrows_if_assignCol (df : DataFrame) (c : Prop) [Decidable c]
    (n : String) (t : Dtype) (f : Row → Value) :
    ((if c then assignCol df n t f else df)).nrows = df.nrows := by
  split
  · exact nrows_assignCol ..
  · rfl

theorem addDatetimeFeatures_nrows (df : DataFrame) (i : ℕ) (col : String)
    (l : List String) : (addDatetimeFeatures df i col l).nrows = df.nrows := by
  unfold addDatetimeFeatures
  simp only [nrows_if_assignCol]

theorem binColumn_nrows (df : DataFrame) (i : ℕ) (col : String) (b : BinCfg)
    (d : DataFrame) (h : binColumn df i col b = .ok d) :
    d.nrows = df.nrows := by
  unfold binColumn at h
  repeat' split at h
  all_goals first
    | (cases h; exact nrows_assignCol ..)
    | cases h

theorem dtFeatureStep_nrows (df : DataFrame) (i : ℕ) (col : String)
    (ft : Features) : (dtFeatureStep df i col ft).nrows = df.nrows := by
  unfold dtFeatureStep
  repeat' split
  all_goals first
    | exact addDatetimeFeatures_nrows ..
    | rfl

theorem binFeatureStep_nrows (df : DataFrame) (i : ℕ) (col : String)
    (ft : Features) (d : DataFrame) (h : binFeatureStep df i col ft = .ok d) :
    d.nrows = df.nrows := by
  unfold binFeatureStep at h
  repeat' split at h
  all_goals first
    | (cases h; rfl)
    | exact binColumn_nrows _ _ _ _ _ h

theorem textAdds_nrows (df : DataFrame) (i : ℕ) (col : String)
    (ld l : List String) :
    (textFeatureStep.textAddWordCount
      (textFeatureStep.textAddLength df i col ld) i col l).nrows =
      df.nrows := by
  unfold textFeatureStep.textAddWordCount textFeatureStep.textAddLength
  repeat' split
  all_goals simp only [nrows_assignCol]

theorem textFeatureStep_nrows (df : DataFrame) (i : ℕ) (col : String)
    (ft : Features) (d : DataFrame)
    (h : textFeatureStep df i col ft = .ok d) : d.nrows = df.nrows := by
  unfold textFeatureStep at h
  repeat' split at h
  all_goals first
    | (cases h; rfl)
    | (cases h; exact textAdds_nrows ..)
    | cases h

theorem applyFeatureOne_nrows (df : DataFrame) (col : String) (ft : Features)
    (d : DataFrame) (h : applyFeatureOne df col ft = .ok d) :
    d.nrows = df.nrows := by
  unfold applyFeatureOne at h
  cases hci : colIdx df col with
  | none => simp only [hci] at h; cases h; rfl
  | some i =>
    simp only [hci] at h
    cases hbin : binFeatureStep (dtFeatureStep df i col ft) i col ft with
    | error e => simp [hbin] at h
    | ok d2 =>
      simp only [hbin] at h
      calc d.nrows = d2.nrows := textFeatureStep_nrows _ _ _ _ _ h
        _ = (dtFeatureStep df i col ft).nrows :=
            binFeatureStep_nrows _ _ _ _ _ hbin
        _ = df.nrows := dtFeatureStep_nrows ..

theorem foldl_concatCol_nrows (cats : List Value) (col : String) (i : ℕ) :
    ∀ df : DataFrame,
      (cats.foldl
        (fun d v =>
          concatCol d (col ++ "_" ++ valueName v) Dtype.boolean
            (fun r => .bool (cellAt r i == v)))
        df).nrows = df.nrows := by
  induction cats with
  | nil => intro df; rfl
  | cons v vs ih =>
      intro df
      rw [List.foldl_cons, ih, nrows_concatCol]

theorem applyEncodingOne_nrows (df : DataFrame) (col method : String)
    (d : DataFrame) (h : applyEncodingOne df col method = .ok d) :
    d.nrows = df.nrows := by
  unfold applyEncodingOne at h
  repeat' split at h
  all_goals first
    | (cases h; rfl)
    | (cases h; rw [nrows_dropNames, foldl_concatCol_nrows])
    | cases h

theorem scaleColumn_nrows (m : String) (df : DataFrame) (col : String) :
    (scaleColumn m df col).nrows = df.nrows := by
  unfold scaleColumn
  split
  · rfl
  · rw [nrows_setDtypeAt, nrows_mapColAt]

theorem foldl_scaleColumn_nrows (m : String) (l : List String) :
    ∀ df : DataFrame, (l.foldl (scaleColumn m) df).nrows = df.nrows := by
  induction l with
  | nil => intro df; rfl
  | cons c cs ih => intro df; rw [List.foldl_cons, ih, scaleColumn_nrows]

theorem scalingStage_nrows (df : DataFrame) (sc : Scaling) (b : Bool)
    (d : DataFrame) (h : scalingStage df sc = .ok (b, d)) :
    d.nrows = df.nrows := by
  unfold scalingStage at h
  repeat' split at h
  all_goals first
    | (cases h; rfl)
    | (cases h; exact foldl_scaleColumn_nrows ..)
    | cases h

theorem foldl_outliers_nrows (l : List (String × String))
    (hm : ∀ p ∈ l, p.2 ≠ "remove") :
    ∀ df : DataFrame,
      (l.foldl (fun d p => applyOutlierOne d p.1 p.2) df).nrows = df.nrows := by
  induction l with
  | nil => intro df; rfl
  | cons p ps ih =>
      intro df
      rw [List.foldl_cons, ih (fun q hq => hm q (List.mem_cons_of_mem p hq)),
        applyOutlierOne_nrows _ _ _ (hm p (List.mem_cons_self p ps))]

theorem foldStages_nrows {α : Type}
    (f : DataFrame → α → Except PyErr DataFrame) (l : List α)
    (hstep : ∀ d a, a ∈ l → ∀ d', f d a = .ok d' → d'.nrows = d.nrows) :
    ∀ d d', foldStages f d l = .ok d' → d'.nrows = d.nrows := by
  induction l with
  | nil => intro d d' h; cases h; rfl
  | cons a l ih =>
      intro d d' h
      unfold foldStages at h
      cases hfa : f d a with
      | error e => rw [hfa] at h; cases h
      | ok d1 =>
          rw [hfa] at h
          rw [ih (fun d a ha => hstep d a (List.mem_cons_of_mem _ ha)) d1 d' h,
            hstep d a (List.mem_cons_self a l) d1 hfa]

theorem stagesBeforeScaling_nrows (df : DataFrame) (cfg : Config)
    (hm : ∀ p ∈ cfg.handle_missing, p.2 ≠ "drop")
    (ho : ∀ p ∈ cfg.handle_outliers, p.2 ≠ "remove")
    (d : DataFrame) (h : stagesBeforeScaling df cfg = .ok d) :
    d.nrows = df.nrows := by
  unfold stagesBeforeScaling at h
  simp only [convertTypesStage_eq, ite_self] at h
  cases hfold : foldStages (fun d p => applyMissingOne d p.1 p.2) df
      cfg.handle_missing with
  | error e => simp [hfold] at h
  | ok pdf =>
      simp only [hfold] at h
      cases h
      rw [foldl_outliers_nrows _ ho,
        foldStages_nrows _ _
          (fun d a ha d' h' => applyMissingOne_nrows d a.1 a.2 (hm a ha) d' h')
          df pdf hfold]

theorem stagesAfterScaling_nrows (df : DataFrame) (cfg : Config)
    (d : DataFrame) (h : stagesAfterScaling df cfg = .ok d) :
    d.nrows = df.nrows := by
  unfold stagesAfterScaling at h
  cases hfe : foldStages (fun d p => applyFeatureOne d p.1 p.2) df
      cfg.feature_engineering with
  | error e => simp [hfe] at h
  | ok d1 =>
      simp only [hfe] at h
      cases hen : foldStages (fun d p => applyEncodingOne d p.1 p.2) d1
          cfg.encoding with
      | error e => simp [hen] at h
      | ok d2 =>
          simp only [hen] at h
          cases h
          have h1 : d1.nrows = df.nrows :=
            foldStages_nrows _ _
              (fun d a _ d' h' => applyFeatureOne_nrows d a.1 a.2 d' h')
              df d1 hfe
          have h2 : d2.nrows = d1.nrows :=
            foldStages_nrows _ _
              (fun d a _ d' h' => applyEncodingOne_nrows d a.1 a.2 d' h')
              d1 d2 hen
          split
          · rw [h2, h1]
          · rw [nrows_dropNames, h2, h1]

/-- C4: for a configuration whose missing-value methods are all fill-style
(no `drop`) and whose outlier methods never say `remove`, with any
combination of scaling, feature engineering, encoding and column dropping,
the dataset `preprocess_data` returns has exactly as many rows as the
input. -/
theorem row_count_invariant (df : DataFrame) (cfg : Config)
    (hm : ∀ p ∈ cfg.handle_missing,
      p.2 ∈ (["mean", "median", "mode", "zero", "forward", "backward"] :
        List String))
    (ho : ∀ p ∈ cfg.handle_outliers, p.2 ≠ "remove")
    (out : DataFrame) (hok : preprocess_data df cfg = .ok out) :
    out.nrows = df.nrows := by
  have hm' : ∀ p ∈ cfg.handle_missing, p.2 ≠ "drop" := by
    intro p hp he
    have := hm p hp
    rw [he] at this
    simp at this
  unfold preprocess_data at hok
  cases hpre : stagesBeforeScaling df cfg with
  | error e => simp [hpre] at hok
  | ok pdf =>
      simp only [hpre] at hok
      have hb : pdf.nrows = df.nrows :=
        stagesBeforeScaling_nrows df cfg hm' ho pdf hpre
      cases hsc : cfg.scaling with
      | none =>
          simp only [hsc] at hok
          rw [stagesAfterScaling_nrows pdf cfg out hok, hb]
      | some sc =>
          simp only [hsc] at hok
          cases hst : scalingStage pdf sc with
          | error e => simp [hst] at hok
          | ok bd =>
              cases bd with
              | mk b d =>
                  simp only [hst] at hok
                  have hd : d.nrows = pdf.nrows :=
                    scalingStage_nrows pdf sc b d hst
                  cases b with
                  | false => cases hok; rw [hd, hb]
                  | true =>
                      rw [stagesAfterScaling_nrows d cfg out hok, hd, hb]

/-! ### Concrete inputs for the individual claims -/

/-- C1 input (a): a float column with a missing value, configured for
fill-zero. -/
def dfC1a : DataFrame :=
  ⟨[("a", Dtype.float64)], [[Value.num 1], [Value.na]]⟩

/-- C1 input (b): a string column configured for label encoding. -/
def dfC1b : DataFrame := ⟨[("c", Dtype.string)], [[Value.str "x"]]⟩

/-- C1 input (c): a string column configured for the `length` text
feature. -/
def dfC1c : DataFrame := ⟨[("t", Dtype.string)], [[Value.str "hi"]]⟩

/-- C1: the spec demands that per-column entries of optional stages are
never fatal, but three of the stage branches raise uncaught exceptions on
present, type-compatible columns: fill-zero on a column with a missing
value (`processed.df`, an undefined name), label encoding
(`col.astype('category')` on the column-name string), and a text feature
on a text column (the misspelt `'text-features'` key). -/
theorem fatal_optional_entries_eval :
    preprocess_data dfC1a { handle_missing := [("a", "zero")] } =
      .error (.nameError "processed") ∧
    preprocess_data dfC1b { encoding := [("c", "label")] } =
      .error (.attributeError "astype") ∧
    preprocess_data dfC1c
        { feature_engineering := [("t", { text_features := some ["length"] })] } =
      .error (.keyError "text-features") := by
  refine ⟨?_, ?_, ?_⟩ <;> with_unfolding_all rfl

/-- C2 input: a float column `[1, NaN, 3]` whose median over the
non-missing values is 2. -/
def dfC2 : DataFrame :=
  ⟨[("a", Dtype.float64)], [[Value.num 1], [Value.na], [Value.num 3]]⟩

/-- C2: the `median` branch misplaces a parenthesis
(`fillna(col).median()` instead of `fillna(col.median())`), so instead of
replacing only the missing entries it broadcasts the scalar median over the
whole column: the non-missing entries 1 and 3 are overwritten with 2. -/
theorem median_fill_overwrites_column :
    medianOf (numsOf (colVals dfC2 0)) = some 2 ∧
    preprocess_data dfC2 { handle_missing := [("a", "median")] } =
      .ok ⟨[("a", Dtype.float64)],
        [[Value.num 2], [Value.num 2], [Value.num 2]]⟩ := by
  refine ⟨?_, ?_⟩ <;> with_unfolding_all rfl

/-- C3 counterexample input: one numeric column, so the scaling stage has a
valid column to meet. -/
def dfC3c : DataFrame := ⟨[("a", Dtype.float64)], [[Value.num 4]]⟩

/-- C3 (counterexample): with the unrecognized scaling method `invalid`
the call raises nothing at all — no `ConfigurationError` exists anywhere in
the code — and instead returns the dataset unchanged. -/
theorem unknown_scaling_returns_ok :
    preprocess_data dfC3c { scaling := some { method := "invalid" } } =
      .ok dfC3c := by
  with_unfolding_all rfl

/-- C3 (amended): when the scaling method is none of `standard`, `minmax`,
`robust` and at least one valid numeric column exists, `preprocess_data`
hits the bare `return processed_df` of line 87: it returns the frame as
processed by the stages before scaling, silently skipping feature
engineering, encoding and column dropping, and raises no exception. -/
theorem unknown_scaling_early_return (df : DataFrame) (cfg : Config)
    (sc : Scaling) (d : DataFrame)
    (hsc : cfg.scaling = some sc)
    (h1 : sc.method ≠ "standard") (h2 : sc.method ≠ "minmax")
    (h3 : sc.method ≠ "robust")
    (hpre : stagesBeforeScaling df cfg = .ok d)
    (hvalid : (validScaleCols d sc).isEmpty = false) :
    preprocess_data df cfg = .ok d := by
  unfold preprocess_data
  simp only [hpre, hsc]
  simp [scalingStage, hvalid, h1, h2, h3]

/-- C3 witness input: a numeric column and a string column the
configuration also asks to drop. -/
def dfC3w : DataFrame :=
  ⟨[("a", Dtype.float64), ("b", Dtype.string)],
    [[Value.num 1, Value.str "u"]]⟩

/-- C3 witness configuration: unknown scaling method `foo`, plus a
`drop_columns` entry that the early return then never executes. -/
def cfgC3w : Config :=
  { scaling := some { method := "foo" }, drop_columns := ["b"] }

/-- C3 witness: on the concrete input the call returns the frame untouched
— column `b` is still present even though `drop_columns` names it, because
the unknown scaling method ended the call early. -/
theorem unknown_scaling_early_return_witness :
    preprocess_data dfC3w cfgC3w = .ok dfC3w :=
  unknown_scaling_early_return dfC3w cfgC3w { method := "foo" } dfC3w rfl
    (by decide) (by decide) (by decide) (by with_unfolding_all rfl)
    (by with_unfolding_all rfl)

/-- C4 witness input: a float column with a missing value, a datetime
column and a string column. -/
def dfC4w : DataFrame :=
  ⟨[("a", Dtype.float64), ("d", Dtype.datetime), ("s", Dtype.string)],
    [[Value.num 1, Value.dt 2024 1 6 5 1, Value.str "hi there"],
     [Value.na, Value.dt 2024 1 8 0 1, Value.str "x"],
     [Value.num 5, Value.na, Value.str "x"]]⟩

/-- C4 witness configuration: one stage of every kind the claim allows —
mean fill, clipping, min-max scaling, datetime features, one-hot encoding
and a column drop. -/
def cfgC4w : Config :=
  { handle_missing := [("a", "mean")],
    handle_outliers := [("a", "clip")],
    scaling := some { method := "minmax" },
    feature_engineering :=
      [("d", { datetime_features := some ["year", "is_weekend"] })],
    encoding := [("s", "onehot")],
    drop_columns := ["d"] }

/-- The frame the C4 witness run produces (read back from the call so the
witness equation is checked by evaluation). -/
def outC4w : DataFrame :=
  match preprocess_data dfC4w cfgC4w with
  | .ok d => d
  | .error _ => dfC4w

/-- C4 witness: the concrete run exercises fill, clip, scaling, datetime
features, one-hot encoding and a drop, and keeps its three rows. -/
theorem row_count_invariant_witness : outC4w.nrows = dfC4w.nrows :=
  row_count_invariant dfC4w cfgC4w (by decide) (by decide) outC4w
    (by with_unfolding_all rfl)

/-- C5: applying the same configuration to the same dataset twice yields
the same output — the pipeline consults no randomness or external state,
so the embedded call is a pure function of `(df, cfg)`. -/
theorem preprocess_deterministic (df : DataFrame) (cfg : Config) :
    preprocess_data df cfg = preprocess_data df cfg := rfl

/-- C6 input: the column `X = [1,2,3,4,5,100]` of the spec's worked
example. -/
def dfC6 : DataFrame :=
  ⟨[("x", Dtype.int64)],
    [[Value.num 1], [Value.num 2], [Value.num 3], [Value.num 4],
     [Value.num 5], [Value.num 100]]⟩

/-- C6: on `X = [1,2,3,4,5,100]` the outlier stage computes Q1 = 2.25,
Q3 = 4.75 (so IQR = 2.5), bounds −1.5 and 8.5; `clip` replaces 100 with
8.5 and leaves the other five values alone, and `remove` deletes that row,
leaving five rows. -/
theorem outlier_bounds_eval :
    quantileOf (1/4) (numsOf (colVals dfC6 0)) = some (9/4) ∧
    quantileOf (3/4) (numsOf (colVals dfC6 0)) = some (19/4) ∧
    outlierBounds (numsOf (colVals dfC6 0)) = some (-(3/2), 17/2) ∧
    preprocess_data dfC6 { handle_outliers := [("x", "clip")] } =
      .ok ⟨[("x", Dtype.int64)],
        [[Value.num 1], [Value.num 2], [Value.num 3], [Value.num 4],
         [Value.num 5], [Value.num (17/2)]]⟩ ∧
    preprocess_data dfC6 { handle_outliers := [("x", "remove")] } =
      .ok ⟨[("x", Dtype.int64)],
        [[Value.num 1], [Value.num 2], [Value.num 3], [Value.num 4],
         [Value.num 5]]⟩ ∧
    (⟨[("x", Dtype.int64)],
      [[Value.num 1], [Value.num 2], [Value.num 3], [Value.num 4],
       [Value.num 5]]⟩ : DataFrame).nrows = 5 := by
  refine ⟨?_, ?_, ?_, ?_, ?_, ?_⟩ <;> with_unfolding_all rfl

/-- C8 input: a float column with a leading missing value. -/
def dfC8 : DataFrame :=
  ⟨[("b", Dtype.float64)], [[Value.na], [Value.num 5]]⟩

/-- C8: fill-zero cannot be idempotent, because it cannot even be applied
once — the column has a missing value, so the guard of line 37 lets the
`zero` branch run, and line 47 writes `processed.df`, reading the undefined
name `processed`: the call raises `NameError` instead of returning a filled
frame. -/
theorem fill_zero_raises_name_error :
    (colVals dfC8 0).any Value.isNa = true ∧
    preprocess_data dfC8 { handle_missing := [("b", "zero")] } =
      .error (.nameError "processed") := by
  refine ⟨?_, ?_⟩ <;> with_unfolding_all rfl

/-- C9: the caller's dataframe is unchanged by the call — line 23 copies
the input into the local `processed_df` and every subsequent statement
operates on that local, so the only effect of the call is its return
value. -/
theorem no_caller_mutation (df : DataFrame) (cfg : Config) :
    (preprocessCall df cfg).1 = df ∧
    (preprocessCall df cfg).2 = preprocess_data df cfg :=
  ⟨rfl, rfl⟩

/-- C10 counterexample input: a one-column frame. -/
def dfC10 : DataFrame := ⟨[("a", Dtype.float64)], [[Value.num 7]]⟩

/-- C10 (counterexample): with `convert_types` truthy on a non-empty frame
the call does **not** raise a `NameError` — it returns normally with the
data untouched, because the per-column `try/except Exception` of lines
27–33 catches the `NameError` and only prints a message. -/
theorem convert_types_no_fatal_error :
    preprocess_data dfC10 { convert_types := true } = .ok dfC10 := by
  with_unfolding_all rfl

/-- C10 (amended): the `convert_types` block does reference the undefined
name `dtype`, raising `NameError` inside the per-column `try`, but
`except Exception` catches it for every column, so the stage is a data
no-op and the call proceeds through the six specified stages exactly as it
would without the flag; the stage appears nowhere in the specification. -/
theorem convert_types_caught_noop (df : DataFrame) (cfg : Config)
    (col : String) :
    convertTypeBody df col = .error (.nameError "dtype") ∧
    convertTypesStage df = df ∧
    preprocess_data df { cfg with convert_types := true } =
      preprocess_data df { cfg with convert_types := false } := by
  have hafter : ∀ (d : DataFrame) (b : Bool),
      stagesAfterScaling d { cfg with convert_types := b } =
        stagesAfterScaling d cfg := fun _ _ => rfl
  refine ⟨rfl, convertTypesStage_eq df, ?_⟩
  unfold preprocess_data stagesBeforeScaling
  simp [convertTypesStage_eq, hafter]

/-! ### Minimum/maximum lemmas for the min-max scaling claim -/

theorem listMinQ_eq_none (xs : List ℚ) (h : listMinQ xs = none) : xs = [] := by
  cases xs with
  | nil => rfl
  | cons a l => simp [listMinQ] at h

theorem listMaxQ_eq_none (xs : List ℚ) (h : listMaxQ xs = none) : xs = [] := by
  cases xs with
  | nil => rfl
  | cons a l => simp [listMaxQ] at h

theorem listMinQ_le (xs : List ℚ) (m : ℚ) (h : listMinQ xs = some m) :
    ∀ x ∈ xs, m ≤ x := by
  induction xs generalizing m with
  | nil => cases h
  | cons a l ih =>
      intro x hx
      unfold listMinQ at h
      injection h with h
      subst h
      cases hl : listMinQ l with
      | none =>
          have := listMinQ_eq_none l hl
          subst this
          simp only [List.mem_singleton] at hx
          subst hx
          simp [listMinQ]
      | some m' =>
          simp only [hl]
          rcases List.mem_cons.mp hx with rfl | hx'
          · exact min_le_left _ _
          · exact le_trans (min_le_right _ _) (ih m' hl x hx')

theorem listMaxQ_ge (xs : List ℚ) (m : ℚ) (h : listMaxQ xs = some m) :
    ∀ x ∈ xs, x ≤ m := by
  induction xs generalizing m with
  | nil => cases h
  | cons a l ih =>
      intro x hx
      unfold listMaxQ at h
      injection h with h
      subst h
      cases hl : listMaxQ l with
      | none =>
          have := listMaxQ_eq_none l hl
          subst this
          simp only [List.mem_singleton] at hx
          subst hx
          simp [listMaxQ]
      | some m' =>
          simp only [hl]
          rcases List.mem_cons.mp hx with rfl | hx'
          · exact le_max_left _ _
          · exact le_trans (ih m' hl x hx') (le_max_right _ _)

theorem listMinQ_mem (xs : List ℚ) (m : ℚ) (h : listMinQ xs = some m) :
    m ∈ xs := by
  induction xs generalizing m with
  | nil => cases h
  | cons a l ih =>
      unfold listMinQ at h
      injection h with h
      subst h
      cases hl : listMinQ l with
      | none => simp [hl]
      | some m' =>
          simp only [hl]
          rcases le_total a m' with hh | hh
          · simp [min_eq_left hh]
          · rw [min_eq_right hh]
            exact List.mem_cons_of_mem _ (ih m' hl)

theorem listMaxQ_mem (xs : List ℚ) (m : ℚ) (h : listMaxQ xs = some m) :
    m ∈ xs := by
  induction xs generalizing m with
  | nil => cases h
  | cons a l ih =>
      unfold listMaxQ at h
      injection h with h
      subst h
      cases hl : listMaxQ l with
      | none => simp [hl]
      | some m' =>
          simp only [hl]
          rcases le_total a m' with hh | hh
          · rw [max_eq_right hh]
            exact List.mem_cons_of_mem _ (ih m' hl)
          · simp [max_eq_left hh]

theorem cellAt_set_self (r : Row) :
    ∀ (i : ℕ) (v : Value), i < r.length → cellAt (r.set i v) i = v := by
  induction r with
  | nil => intro i v h; simp at h
  | cons a t ih =>
      intro i v h
      cases i with
      | zero => rfl
      | succ j =>
          have hj : j < t.length := by simpa using h
          simpa [cellAt, List.getD_cons_succ] using ih j v hj

theorem colVals_mapColAt (df : DataFrame) (i : ℕ) (f : Value → Value)
    (hw : ∀ r ∈ df.rows, i < r.length) :
    colVals (mapColAt df i f) i = (colVals df i).map f := by
  simp only [colVals, mapColAt, List.map_map]
  apply List.map_congr_left
  intro r hr
  simp only [Function.comp_apply]
  rw [cellAt_set_self r i _ (hw r hr)]

theorem numsOf_map_num (f : ℚ → ℚ) (vs : List Value) :
    numsOf (vs.map (fun v =>
      match v with | .num q => .num (f q) | v => v)) = (numsOf vs).map f := by
  induction vs with
  | nil => rfl
  | cons v l ih => cases v <;> simpa [numsOf] using ih

/-- C7: on a numeric column scaled with `minmax`, when the column's
non-missing values have minimum `mn` and maximum `mx`: if `mn < mx` every
scaled value lies in `[0, 1]`, the minimum maps to exactly 0 and the
maximum to exactly 1; if `mn = mx` (the degenerate column) every scaled
value is 0, because the zero range is replaced by 1 before dividing. -/
theorem minmax_bounds (df : DataFrame) (col : String) (i : ℕ) (mn mx : ℚ)
    (hi : colIdx df col = some i)
    (hw : ∀ r ∈ df.rows, i < r.length)
    (hmn : listMinQ (numsOf (colVals df i)) = some mn)
    (hmx : listMaxQ (numsOf (colVals df i)) = some mx) :
    (mn < mx →
      (∀ y ∈ numsOf (colVals (scaleColumn "minmax" df col) i),
        0 ≤ y ∧ y ≤ 1) ∧
      (0 : ℚ) ∈ numsOf (colVals (scaleColumn "minmax" df col) i) ∧
      (1 : ℚ) ∈ numsOf (colVals (scaleColumn "minmax" df col) i)) ∧
    (mn = mx →
      ∀ y ∈ numsOf (colVals (scaleColumn "minmax" df col) i), y = 0) := by
  have hys : numsOf (colVals (scaleColumn "minmax" df col) i) =
      (numsOf (colVals df i)).map
        (scalerFun "minmax" (numsOf (colVals df i))) := by
    unfold scaleColumn
    simp only [hi]
    rw [show ∀ dd : DataFrame, colVals (setDtypeAt dd i Dtype.float64) i =
        colVals dd i from fun _ => rfl]
    rw [colVals_mapColAt df i _ hw, numsOf_map_num]
  have hf : scalerFun "minmax" (numsOf (colVals df i)) =
      fun x => (x - mn) / (if mx - mn = 0 then 1 else mx - mn) := by
    unfold scalerFun
    rw [if_neg (by decide : ¬("minmax" = "standard")), if_pos rfl, hmn, hmx]
    simp
  rw [hys, hf]
  constructor
  · intro hlt
    have hne : mx - mn ≠ 0 := sub_ne_zero.mpr (ne_of_gt hlt)
    have hpos : 0 < mx - mn := sub_pos.mpr hlt
    refine ⟨?_, ?_, ?_⟩
    · intro y hy
      obtain ⟨x, hx, rfl⟩ := List.mem_map.mp hy
      rw [if_neg hne]
      constructor
      · exact div_nonneg
          (sub_nonneg.mpr (listMinQ_le _ _ hmn x hx)) (le_of_lt hpos)
      · exact (div_le_one hpos).mpr
          (sub_le_sub_right (listMaxQ_ge _ _ hmx x hx) mn)
    · refine List.mem_map.mpr ⟨mn, listMinQ_mem _ _ hmn, ?_⟩
      rw [if_neg hne, sub_self, zero_div]
    · refine List.mem_map.mpr ⟨mx, listMaxQ_mem _ _ hmx, ?_⟩
      rw [if_neg hne]
      exact div_self hne
  · intro heq y hy
    obtain ⟨x, hx, rfl⟩ := List.mem_map.mp hy
    have hle := listMinQ_le _ _ hmn x hx
    have hge := listMaxQ_ge _ _ hmx x hx
    rw [← heq] at hge
    have : x = mn := le_antisymm hge hle
    rw [this, sub_self, zero_div]

/-- C7 witness input: a float column `[2, 4, 6]`. -/
def dfC7w : DataFrame :=
  ⟨[("a", Dtype.float64)], [[Value.num 2], [Value.num 4], [Value.num 6]]⟩

/-- C7 witness: scaling the concrete column `[2, 4, 6]` with `minmax`
produces a column attaining exactly 0 and exactly 1. -/
theorem minmax_bounds_witness :
    (0 : ℚ) ∈ numsOf (colVals (scaleColumn "minmax" dfC7w "a") 0) ∧
    (1 : ℚ) ∈ numsOf (colVals (scaleColumn "minmax" dfC7w "a") 0) :=
  ((minmax_bounds dfC7w "a" 0 2 6 (by with_unfolding_all rfl) (by decide)
    (by with_unfolding_all rfl) (by with_unfolding_all rfl)).1
    (by norm_num)).2
